import Mathlib

/-!
Shallow embedding of the elastic grid network background and contact form
logic of script.js, together with proofs of the specified properties.

Coordinates, velocities and cursor positions are modelled as real numbers
(the idealised semantics of the floating point arithmetic of the source);
canvas pixel dimensions are natural numbers.
-/

namespace Portfolio

/-- Configuration constant from the config object: grid spacing (40). -/
def spacing : ℝ := 40

/-- Configuration constant from the config object: cursor influence radius (150). -/
def influence : ℝ := 150

/-- Configuration constant from the config object: repulsion force coefficient (0.6). -/
noncomputable def force : ℝ := 3 / 5

/-- Configuration constant from the config object: velocity damping factor (0.9). -/
noncomputable def damping : ℝ := 9 / 10

/-- Configuration constant from the config object: spring tension factor (0.05). -/
noncomputable def tension : ℝ := 1 / 20

/-- Initial cursor x coordinate, also restored by the mouseleave handler. -/
def mouseX0 : ℝ := -1000

/-- Initial cursor y coordinate, also restored by the mouseleave handler. -/
def mouseY0 : ℝ := -1000

/-- The mouseleave handler forces the cursor to the off-screen sentinel. -/
def mouseLeave (_c : ℝ × ℝ) : ℝ × ℝ := (mouseX0, mouseY0)

/-- Grid point state: anchor (originX, originY), current position (x, y),
velocity (vx, vy); mirrors the fields of class Point. -/
structure Point where
  originX : ℝ
  originY : ℝ
  x : ℝ
  y : ℝ
  vx : ℝ
  vy : ℝ

/-- Constructor of class Point: position starts at the anchor, velocity at zero. -/
def Point.init (x y : ℝ) : Point :=
  { originX := x, originY := y, x := x, y := y, vx := 0, vy := 0 }

/-- Two-argument arctangent as used by Math.atan2(dy, dx); the complex
argument of dx + dy i agrees with the ECMAScript function on all reals,
in particular atan2 0 0 = 0. -/
noncomputable def atan2 (dy dx : ℝ) : ℝ := Complex.arg ⟨dx, dy⟩

/-- Velocity change applied by the mouse repulsion branch of Point.update
(lines 33 to 42): zero when the distance reaches the influence radius,
otherwise a push of magnitude f * force away from the cursor. -/
noncomputable def repulsionDelta (dx dy : ℝ) : ℝ × ℝ :=
  let distance := Real.sqrt (dx * dx + dy * dy)
  if distance < influence then
    let angle := atan2 dy dx
    let f := (influence - distance) / influence
    (-(Real.cos angle * f * force), -(Real.sin angle * f * force))
  else (0, 0)

/-- Per-frame update of Point.update, with the drift amplitude (the literal
5 of the source) kept as a parameter amp so that the test configuration
with drift amplitude zero can be expressed; the source behaviour is amp = 5. -/
noncomputable def updateAmp (amp mx my t : ℝ) (p : Point) : Point :=
  let d := repulsionDelta (mx - p.x) (my - p.y)
  let vx1 := p.vx + d.1
  let vy1 := p.vy + d.2
  let driftX := Real.sin (t + p.originY * 0.05) * amp
  let driftY := Real.cos (t + p.originX * 0.05) * amp
  let ox := (p.originX + driftX) - p.x
  let oy := (p.originY + driftY) - p.y
  let vx2 := (vx1 + ox * tension) * damping
  let vy2 := (vy1 + oy * tension) * damping
  { p with x := p.x + vx2, y := p.y + vy2, vx := vx2, vy := vy2 }

/-- Point.update exactly as in the source: drift amplitude 5. -/
noncomputable def Point.update (mx my t : ℝ) (p : Point) : Point :=
  updateAmp 5 mx my t p

/-- Iterated per-frame update (n frames with fixed cursor and clock). -/
noncomputable def iterUpdate (amp mx my t : ℝ) (p : Point) : ℕ → Point
  | 0 => p
  | n + 1 => updateAmp amp mx my t (iterUpdate amp mx my t p n)

/-- Euclidean distance from the current position of a point to its anchor. -/
noncomputable def distToAnchor (p : Point) : ℝ :=
  Real.sqrt ((p.x - p.originX) ^ 2 + (p.y - p.originY) ^ 2)

/-- Euclidean magnitude of a planar velocity contribution. -/
noncomputable def vecMag (v : ℝ × ℝ) : ℝ := Real.sqrt (v.1 ^ 2 + v.2 ^ 2)

/-- Column count of initGrid: ceil(width / spacing) + 2. -/
def cols (w : ℕ) : ℕ := ⌈(w : ℚ) / 40⌉₊ + 2

/-- Row count of initGrid: ceil(height / spacing) + 2. -/
def rows (h : ℕ) : ℕ := ⌈(h : ℚ) / 40⌉₊ + 2

/-- Grid construction of initGrid (lines 73 to 90): for i below cols and j
below rows, a point anchored at (-spacing + i * spacing, -spacing + j * spacing),
outer loop over i, inner loop over j. -/
noncomputable def initGrid (w h : ℕ) : List Point :=
  (List.range (cols w)).flatMap fun (i : ℕ) =>
    (List.range (rows h)).map fun (j : ℕ) =>
      Point.init (-spacing + (i : ℝ) * spacing) (-spacing + (j : ℝ) * spacing)

/-- Canvas pixel dimensions. -/
structure Canvas where
  width : ℕ
  height : ℕ

/-- Global renderer state: the canvas reference (none when the rendering
surface is unavailable) and the mutable point collection. -/
structure SimState where
  canvas : Option Canvas
  points : List Point

/-- Guarded grid construction: initGrid returns at once when the canvas is
absent, otherwise replaces the point collection with a fresh grid. -/
noncomputable def initGridGuarded (s : SimState) : SimState :=
  match s.canvas with
  | none => s
  | some cv => { s with points := initGrid cv.width cv.height }

/-- resizeCanvas (lines 92 to 97): returns at once when the canvas is absent,
otherwise stores the window size in the canvas and rebuilds the grid. -/
noncomputable def resizeCanvas (winW winH : ℕ) (s : SimState) : SimState :=
  match s.canvas with
  | none => s
  | some _ => initGridGuarded { canvas := some ⟨winW, winH⟩, points := s.points }

/-- Visibility guard of the connecting-line loop (line 118): holds when the
current position is beyond the 50 pixel margin around the viewport. -/
def outOfBounds (w h : ℕ) (p : Point) : Prop :=
  p.x < -50 ∨ p.x > w + 50 ∨ p.y < -50 ∨ p.y > h + 50

open Classical in
/-- First list element satisfying a predicate, as Array.prototype.find. -/
noncomputable def findPt (f : Point → Prop) : List Point → Option Point
  | [] => none
  | p :: ps => if f p then some p else findPt f ps

/-- Right neighbour lookup of the connecting-line loop (line 121). -/
noncomputable def rightNeighbor (pts : List Point) (p : Point) : Option Point :=
  findPt (fun n => |n.originX - (p.originX + spacing)| < 1 ∧ |n.originY - p.originY| < 1) pts

/-- Bottom neighbour lookup of the connecting-line loop (line 127). -/
noncomputable def bottomNeighbor (pts : List Point) (p : Point) : Option Point :=
  findPt (fun n => |n.originX - p.originX| < 1 ∧ |n.originY - (p.originY + spacing)| < 1) pts

open Classical in
/-- Connecting-line segments emitted for one frame (lines 114 to 132): each
in-bounds point contributes one segment to its right neighbour and one to its
bottom neighbour when those lookups succeed; an out-of-bounds point is
skipped as a segment source by the early return of line 118. -/
noncomputable def segmentsOf (w h : ℕ) (pts : List Point) : List (Point × Point) :=
  pts.flatMap fun p =>
    if outOfBounds w h p then []
    else
      (match rightNeighbor pts p with
        | some n => [(p, n)]
        | none => []) ++
      (match bottomNeighbor pts p with
        | some n => [(p, n)]
        | none => [])

/-- One animation frame (lines 99 to 139): update every point, then collect
the connecting-line segments of the updated collection. -/
noncomputable def animateFrame (mx my t : ℝ) (w h : ℕ) (pts : List Point) :
    List Point × List (Point × Point) :=
  let pts2 := pts.map (Point.update mx my t)
  (pts2, segmentsOf w h pts2)

/-- Guarded animation step: animate returns at once (no state change, nothing
drawn) when the canvas or its drawing context is absent. -/
noncomputable def animateGuarded (mx my t : ℝ) (s : SimState) :
    SimState × List (Point × Point) :=
  match s.canvas with
  | none => (s, [])
  | some cv =>
    let r := animateFrame mx my t cv.width cv.height s.points
    ({ s with points := r.1 }, r.2)

/-- Whitespace trimming on character lists, modelling String.prototype.trim. -/
def trimChars (l : List Char) : List Char :=
  ((l.dropWhile Char.isWhitespace).reverse.dropWhile Char.isWhitespace).reverse

/-- Whitespace trimming of a string, modelling String.prototype.trim. -/
def jsTrim (s : String) : String := ⟨trimChars s.data⟩

/-- Language of the email validation pattern of line 242, anchored: one or
more characters that are neither whitespace nor the at sign, an at sign, one
or more such characters, a dot, and one or more such characters. -/
def emailPattern (s : String) : Prop :=
  ∃ a b c : List Char,
    s.data = a ++ '@' :: (b ++ '.' :: c) ∧
    a ≠ [] ∧ b ≠ [] ∧ c ≠ [] ∧
    ∀ ch ∈ a ++ b ++ c, ¬ch.isWhitespace ∧ ch ≠ '@'

/-- Status message written to the form status element by the submit handler;
the constructors stand for the texts set at lines 246, 251, 273 and 278. -/
inductive FormStatus where
  | fillAllFields
  | invalidEmail
  | sentSuccessfully
  | sendFailed
deriving DecidableEq

/-- Observable outcome of one run of the submit handler. -/
structure SubmitOutcome where
  status : FormStatus
  sendAttempted : Bool
  formResetDone : Bool
deriving DecidableEq

open Classical in
/-- Contact form submit handler (lines 234 to 284): trim the three fields,
report an error and stop when one is empty or the email fails the pattern,
otherwise attempt the send; the send outcome (success of the awaited
emailjs.send call) is the parameter sendOk, and the form is reset only on
the success path. -/
noncomputable def handleSubmit (rawName rawEmail rawMessage : String) (sendOk : Bool) :
    SubmitOutcome :=
  let name := jsTrim rawName
  let email := jsTrim rawEmail
  let message := jsTrim rawMessage
  if name = "" ∨ email = "" ∨ message = "" then
    ⟨FormStatus.fillAllFields, false, false⟩
  else if ¬ emailPattern email then
    ⟨FormStatus.invalidEmail, false, false⟩
  else if sendOk then
    ⟨FormStatus.sentSuccessfully, true, true⟩
  else
    ⟨FormStatus.sendFailed, true, false⟩

/-! ## Helper lemmas about the grid construction -/

/-- Characterisation of membership in the constructed grid. -/
lemma initGrid_mem (w h : ℕ) (p : Point) :
    p ∈ initGrid w h ↔ ∃ i < cols w, ∃ j < rows h,
      p = Point.init (-spacing + (i : ℝ) * spacing) (-spacing + (j : ℝ) * spacing) := by
  simp only [initGrid, List.mem_flatMap, List.mem_map, List.mem_range]
  constructor
  · rintro ⟨i, hi, j, hj, rfl⟩
    exact ⟨i, hi, j, hj, rfl⟩
  · rintro ⟨i, hi, j, hj, rfl⟩
    exact ⟨i, hi, j, hj, rfl⟩

/-- Every constructed grid point starts at its anchor with zero velocity. -/
lemma initGrid_point_fields (w h : ℕ) :
    ∀ p ∈ initGrid w h, p.x = p.originX ∧ p.y = p.originY ∧ p.vx = 0 ∧ p.vy = 0 := by
  intro p hp
  obtain ⟨i, _, j, _, rfl⟩ := (initGrid_mem w h p).1 hp
  exact ⟨rfl, rfl, rfl, rfl⟩

/-- The constructed grid has exactly cols * rows points. -/
lemma initGrid_length (w h : ℕ) : (initGrid w h).length = cols w * rows h := by
  simp only [initGrid, List.length_flatMap, Function.comp_def, List.length_map,
    List.length_range, List.map_const', List.sum_replicate, smul_eq_mul]

/-- Branch lemma: an empty trimmed field reports the fill-all error. -/
lemma handleSubmit_empty (rn re rm : String) (sendOk : Bool)
    (h1 : jsTrim rn = "" ∨ jsTrim re = "" ∨ jsTrim rm = "") :
    handleSubmit rn re rm sendOk = ⟨FormStatus.fillAllFields, false, false⟩ := by
  unfold handleSubmit
  rw [if_pos h1]

/-- Branch lemma: nonempty fields with an invalid email report the email error. -/
lemma handleSubmit_badEmail (rn re rm : String) (sendOk : Bool)
    (h1 : ¬(jsTrim rn = "" ∨ jsTrim re = "" ∨ jsTrim rm = ""))
    (h2 : ¬ emailPattern (jsTrim re)) :
    handleSubmit rn re rm sendOk = ⟨FormStatus.invalidEmail, false, false⟩ := by
  unfold handleSubmit
  rw [if_neg h1, if_pos h2]

/-- Branch lemma: a valid submission with a successful send resets the form. -/
lemma handleSubmit_ok (rn re rm : String)
    (h1 : ¬(jsTrim rn = "" ∨ jsTrim re = "" ∨ jsTrim rm = ""))
    (h2 : emailPattern (jsTrim re)) :
    handleSubmit rn re rm true = ⟨FormStatus.sentSuccessfully, true, true⟩ := by
  unfold handleSubmit
  rw [if_neg h1, if_neg (not_not_intro h2), if_pos rfl]

/-- Branch lemma: a valid submission with a failed send keeps the fields. -/
lemma handleSubmit_fail (rn re rm : String)
    (h1 : ¬(jsTrim rn = "" ∨ jsTrim re = "" ∨ jsTrim rm = ""))
    (h2 : emailPattern (jsTrim re)) :
    handleSubmit rn re rm false = ⟨FormStatus.sendFailed, true, false⟩ := by
  unfold handleSubmit
  rw [if_neg h1, if_neg (not_not_intro h2), if_neg (by simp)]

/-! ## C1: grid construction builds the expected lattice -/

/-- C1: for every canvas width and height and the configured spacing 40,
initGrid builds exactly cols * rows points with cols = ceil(W/40) + 2 and
rows = ceil(H/40) + 2; the anchors are exactly the lattice points
(-spacing + i * spacing, -spacing + j * spacing) for i below cols and
j below rows, and every constructed point sits at its anchor with zero
velocity. -/
theorem grid_lattice_spec (w h : ℕ) :
    (initGrid w h).length = cols w * rows h ∧
    (∀ p ∈ initGrid w h, p.x = p.originX ∧ p.y = p.originY ∧ p.vx = 0 ∧ p.vy = 0) ∧
    (∀ p ∈ initGrid w h, ∃ i < cols w, ∃ j < rows h,
      p.originX = -spacing + (i : ℝ) * spacing ∧ p.originY = -spacing + (j : ℝ) * spacing) ∧
    (∀ i < cols w, ∀ j < rows h, ∃ p ∈ initGrid w h,
      p.originX = -spacing + (i : ℝ) * spacing ∧ p.originY = -spacing + (j : ℝ) * spacing ∧
      p.x = p.originX ∧ p.y = p.originY ∧ p.vx = 0 ∧ p.vy = 0) := by
  refine ⟨initGrid_length w h, initGrid_point_fields w h, ?_, ?_⟩
  · intro p hp
    obtain ⟨i, hi, j, hj, rfl⟩ := (initGrid_mem w h p).1 hp
    exact ⟨i, hi, j, hj, rfl, rfl⟩
  · intro i hi j hj
    refine ⟨Point.init (-spacing + (i : ℝ) * spacing) (-spacing + (j : ℝ) * spacing), ?_,
      rfl, rfl, rfl, rfl, rfl, rfl⟩
    exact (initGrid_mem w h _).2 ⟨i, hi, j, hj, rfl⟩

/-- Witness for C1 at a 100 by 50 canvas: ceil(100/40) + 2 = 5 columns and
ceil(50/40) + 2 = 4 rows give 20 points. -/
theorem grid_lattice_spec_witness : (initGrid 100 50).length = 20 := by
  have h := (grid_lattice_spec 100 50).1
  have hc : cols 100 = 5 := by
    have hq : ⌈((100 : ℕ) : ℚ) / 40⌉₊ = 3 := by
      rw [show (((100 : ℕ) : ℚ)) / 40 = 5 / 2 by norm_num,
        Nat.ceil_eq_iff (by norm_num)]
      norm_num
    rw [cols, hq]
  have hr : rows 50 = 4 := by
    have hq : ⌈((50 : ℕ) : ℚ) / 40⌉₊ = 2 := by
      rw [show (((50 : ℕ) : ℚ)) / 40 = 5 / 4 by norm_num,
        Nat.ceil_eq_iff (by norm_num)]
      norm_num
    rw [rows, hq]
  rw [h, hc, hr]

/-! ## C7: resize rebuilds the collection from scratch -/

/-- C7: a viewport resize (and the startup call) rebuilds the point
collection from scratch: the new collection is exactly initGrid of the new
size, independent of the previous points and their velocities, and every
new point sits at its anchor with zero velocity. -/
theorem resize_rebuild_spec (winW winH : ℕ) (cv : Canvas) (pts0 : List Point) :
    (resizeCanvas winW winH ⟨some cv, pts0⟩).points = initGrid winW winH ∧
    ∀ p ∈ (resizeCanvas winW winH ⟨some cv, pts0⟩).points,
      p.x = p.originX ∧ p.y = p.originY ∧ p.vx = 0 ∧ p.vy = 0 := by
  refine ⟨rfl, ?_⟩
  intro p hp
  exact initGrid_point_fields winW winH p hp

/-- Witness for C7: resizing away a dirty collection with nonzero velocity
yields exactly the fresh grid. -/
theorem resize_rebuild_spec_witness :
    (resizeCanvas 100 50 ⟨some ⟨1, 1⟩, [⟨0, 0, 5, 5, 3, 3⟩]⟩).points = initGrid 100 50 :=
  (resize_rebuild_spec 100 50 ⟨1, 1⟩ [⟨0, 0, 5, 5, 3, 3⟩]).1

/-! ## C9: unavailable rendering surface means total no-op -/

/-- C9: when the rendering surface is unavailable, grid construction, resize
and the animation step all return without modifying any state and without
emitting any drawing. -/
theorem unavailable_surface_noop_spec (pts : List Point) (mx my t : ℝ) (w h : ℕ) :
    initGridGuarded ⟨none, pts⟩ = ⟨none, pts⟩ ∧
    resizeCanvas w h ⟨none, pts⟩ = ⟨none, pts⟩ ∧
    animateGuarded mx my t ⟨none, pts⟩ = (⟨none, pts⟩, []) :=
  ⟨rfl, rfl, rfl⟩

/-! ## C10: contact form validation gates the send -/

/-- C10: the email send is attempted exactly when the three trimmed fields
are nonempty and the trimmed email matches the validation pattern; when a
check fails the handler reports the corresponding error and attempts no
send; the form fields are reset exactly when a send was attempted and
succeeded. -/
theorem contact_form_validation_spec (rn re rm : String) (sendOk : Bool) :
    ((handleSubmit rn re rm sendOk).sendAttempted = true ↔
      (jsTrim rn ≠ "" ∧ jsTrim re ≠ "" ∧ jsTrim rm ≠ "" ∧ emailPattern (jsTrim re))) ∧
    ((handleSubmit rn re rm sendOk).formResetDone = true ↔
      (jsTrim rn ≠ "" ∧ jsTrim re ≠ "" ∧ jsTrim rm ≠ "" ∧ emailPattern (jsTrim re) ∧
        sendOk = true)) ∧
    ((jsTrim rn = "" ∨ jsTrim re = "" ∨ jsTrim rm = "" ∨ ¬ emailPattern (jsTrim re)) →
      ((handleSubmit rn re rm sendOk).status = FormStatus.fillAllFields ∨
        (handleSubmit rn re rm sendOk).status = FormStatus.invalidEmail) ∧
      (handleSubmit rn re rm sendOk).sendAttempted = false) := by
  by_cases h1 : jsTrim rn = "" ∨ jsTrim re = "" ∨ jsTrim rm = ""
  · rw [handleSubmit_empty rn re rm sendOk h1]
    refine ⟨?_, ?_, fun _ => ⟨Or.inl rfl, rfl⟩⟩ <;>
      · simp only [show (⟨FormStatus.fillAllFields, false, false⟩ :
          SubmitOutcome).sendAttempted = false from rfl,
          show (⟨FormStatus.fillAllFields, false, false⟩ :
          SubmitOutcome).formResetDone = false from rfl, Bool.false_eq_true, false_iff]
        tauto
  · by_cases h2 : emailPattern (jsTrim re)
    · push_neg at h1
      obtain ⟨hn, he, hm⟩ := h1
      cases sendOk with
      | true =>
        rw [handleSubmit_ok rn re rm (by tauto) h2]
        refine ⟨?_, ?_, ?_⟩
        · simpa using ⟨hn, he, hm, h2⟩
        · simpa using ⟨hn, he, hm, h2⟩
        · intro hbad
          exact absurd hbad (by tauto)
      | false =>
        rw [handleSubmit_fail rn re rm (by tauto) h2]
        refine ⟨?_, ?_, ?_⟩
        · simpa using ⟨hn, he, hm, h2⟩
        · simp
        · intro hbad
          exact absurd hbad (by tauto)
    · rw [handleSubmit_badEmail rn re rm sendOk h1 h2]
      refine ⟨?_, ?_, fun _ => ⟨Or.inr rfl, rfl⟩⟩ <;>
        · simp only [show (⟨FormStatus.invalidEmail, false, false⟩ :
            SubmitOutcome).sendAttempted = false from rfl,
            show (⟨FormStatus.invalidEmail, false, false⟩ :
            SubmitOutcome).formResetDone = false from rfl, Bool.false_eq_true, false_iff]
          tauto

/-- Witness for C10: a fully valid submission with a successful send is
attempted. -/
theorem contact_form_validation_spec_witness :
    (handleSubmit "Alice" "a@b.c" "hi" true).sendAttempted = true :=
  (contact_form_validation_spec "Alice" "a@b.c" "hi" true).1.mpr
    ⟨by decide, by decide, by decide,
      ⟨['a'], ['b'], ['c'], by decide, by decide, by decide, by decide, by decide⟩⟩

/-! ## Helper lemmas about the repulsion branch -/

/-- Math.atan2 of the zero vector is zero, as in ECMAScript. -/
lemma atan2_zero_zero : atan2 0 0 = 0 := by
  have h : (⟨(0 : ℝ), (0 : ℝ)⟩ : ℂ) = 0 := by
    simp [Complex.ext_iff]
  rw [atan2, h, Complex.arg_zero]

/-- At the influence radius and beyond, the repulsion branch is skipped. -/
lemma repulsionDelta_far (dx dy : ℝ) (h : influence ^ 2 ≤ dx * dx + dy * dy) :
    repulsionDelta dx dy = (0, 0) := by
  have h2 : influence ≤ Real.sqrt (dx * dx + dy * dy) := by
    calc influence = Real.sqrt (influence ^ 2) :=
          (Real.sqrt_sq (by norm_num [influence])).symm
      _ ≤ Real.sqrt (dx * dx + dy * dy) := Real.sqrt_le_sqrt h
  simp only [repulsionDelta]
  rw [if_neg (not_lt.mpr h2)]

/-- At distance exactly zero the branch is taken with angle atan2 0 0 = 0,
so the push is the full force along the negative x axis. -/
lemma repulsionDelta_zero : repulsionDelta 0 0 = (-force, 0) := by
  simp only [repulsionDelta]
  rw [show (0 : ℝ) * 0 + 0 * 0 = 0 by norm_num, Real.sqrt_zero,
    if_pos (by norm_num [influence]), atan2_zero_zero, Real.cos_zero, Real.sin_zero]
  simp only [Prod.mk.injEq]
  constructor <;> · simp [influence]

/-- Magnitude of the repulsion contribution as a function of the distance:
linear falloff inside the influence radius, zero outside. -/
lemma vecMag_repulsionDelta (dx dy : ℝ) :
    vecMag (repulsionDelta dx dy) =
      if Real.sqrt (dx * dx + dy * dy) < influence
      then (influence - Real.sqrt (dx * dx + dy * dy)) / influence * force
      else 0 := by
  by_cases h : Real.sqrt (dx * dx + dy * dy) < influence
  · rw [if_pos h]
    simp only [repulsionDelta]
    rw [if_pos h]
    simp only [vecMag]
    have hd : 0 ≤ Real.sqrt (dx * dx + dy * dy) := Real.sqrt_nonneg _
    set d := Real.sqrt (dx * dx + dy * dy) with hdd
    set θ := atan2 dy dx with hθ
    have hsq : (-(Real.cos θ * ((influence - d) / influence) * force)) ^ 2 +
        (-(Real.sin θ * ((influence - d) / influence) * force)) ^ 2 =
        ((influence - d) / influence * force) ^ 2 *
          ((Real.sin θ) ^ 2 + (Real.cos θ) ^ 2) := by ring
    rw [hsq, Real.sin_sq_add_cos_sq, mul_one, Real.sqrt_sq ?hpos]
    case hpos =>
      have h1 : (0 : ℝ) ≤ (influence - d) / influence := by
        apply div_nonneg
        · simp only [influence] at h ⊢
          linarith
        · norm_num [influence]
      have h2 : (0 : ℝ) ≤ force := by norm_num [force]
      exact mul_nonneg h1 h2
  · rw [if_neg h]
    simp only [repulsionDelta]
    rw [if_neg h]
    simp [vecMag]

/-! ## C2: repulsion magnitude falls off monotonically with distance -/

/-- C2: the magnitude of the repulsion velocity contribution never increases
as the point-to-cursor distance grows (so moving the cursor closer never
decreases it), and at distance at least the influence radius the
contribution is exactly zero. -/
theorem repulsion_monotone_spec :
    (∀ dx1 dy1 dx2 dy2 : ℝ,
      Real.sqrt (dx1 * dx1 + dy1 * dy1) ≤ Real.sqrt (dx2 * dx2 + dy2 * dy2) →
      vecMag (repulsionDelta dx2 dy2) ≤ vecMag (repulsionDelta dx1 dy1)) ∧
    (∀ dx dy : ℝ, influence ≤ Real.sqrt (dx * dx + dy * dy) →
      repulsionDelta dx dy = (0, 0)) := by
  constructor
  · intro dx1 dy1 dx2 dy2 hle
    rw [vecMag_repulsionDelta, vecMag_repulsionDelta]
    have h1 : 0 ≤ Real.sqrt (dx1 * dx1 + dy1 * dy1) := Real.sqrt_nonneg _
    set d1 := Real.sqrt (dx1 * dx1 + dy1 * dy1)
    set d2 := Real.sqrt (dx2 * dx2 + dy2 * dy2)
    split_ifs with ha hb hb
    · simp only [influence, force] at ha hb ⊢
      have h2 : (150 - d2) / 150 ≤ (150 - d1) / 150 := by linarith
      nlinarith
    · exact absurd (lt_of_le_of_lt hle ha) hb
    · have h2 : (0 : ℝ) ≤ (influence - d1) / influence * force := by
        apply mul_nonneg
        · apply div_nonneg
          · simp only [influence] at hb ⊢
            linarith
          · norm_num [influence]
        · norm_num [force]
      linarith
    · exact le_refl 0
  · intro dx dy h
    apply repulsionDelta_far
    have h0 : 0 ≤ dx * dx + dy * dy := by
      nlinarith [mul_self_nonneg dx, mul_self_nonneg dy]
    have h1 := Real.sq_sqrt h0
    simp only [influence] at h ⊢
    nlinarith [h, h1, Real.sqrt_nonneg (dx * dx + dy * dy)]

/-- Witness for C2: doubling the distance from 50 to 100 does not increase
the push, and at distance 150 the contribution vanishes. -/
theorem repulsion_monotone_spec_witness :
    vecMag (repulsionDelta 60 80) ≤ vecMag (repulsionDelta 30 40) ∧
    repulsionDelta 90 120 = (0, 0) := by
  constructor
  · exact repulsion_monotone_spec.1 30 40 60 80 (Real.sqrt_le_sqrt (by norm_num))
  · apply repulsion_monotone_spec.2 90 120
    rw [show (90 : ℝ) * 90 + 120 * 120 = 150 ^ 2 by norm_num,
      Real.sqrt_sq (by norm_num)]
    norm_num [influence]

/-! ## C5: a point exactly at the cursor still receives a push -/

/-- Counterexample for C5: at distance zero the repulsion step does not
leave the velocity unchanged; the contribution is (-force, 0), a push of
magnitude 0.6 along the negative x axis (atan2 0 0 = 0 in ECMAScript). -/
theorem zero_distance_push_counterexample :
    repulsionDelta 0 0 ≠ (0, 0) ∧ repulsionDelta 0 0 = (-force, 0) := by
  refine ⟨?_, repulsionDelta_zero⟩
  rw [repulsionDelta_zero]
  intro hcontra
  rw [Prod.mk.injEq] at hcontra
  have h1 := hcontra.1
  norm_num [force] at h1

/-- C5 amended: a point coinciding with the cursor is treated as within
influence, and the repulsion step adds the finite, well defined
contribution (-force, 0) to its velocity rather than leaving it unchanged. -/
theorem zero_distance_push_amended (p : Point) (mx my : ℝ)
    (hx : mx = p.x) (hy : my = p.y) :
    Real.sqrt ((mx - p.x) * (mx - p.x) + (my - p.y) * (my - p.y)) < influence ∧
    repulsionDelta (mx - p.x) (my - p.y) = (-force, 0) := by
  subst hx
  subst hy
  rw [sub_self, sub_self]
  constructor
  · rw [show (0 : ℝ) * 0 + 0 * 0 = 0 by norm_num, Real.sqrt_zero]
    norm_num [influence]
  · exact repulsionDelta_zero

/-- Witness for C5 amended at the origin point. -/
theorem zero_distance_push_amended_witness :
    Real.sqrt (((0 : ℝ) - 0) * (0 - 0) + ((0 : ℝ) - 0) * (0 - 0)) < influence ∧
    repulsionDelta ((0 : ℝ) - 0) ((0 : ℝ) - 0) = (-force, 0) :=
  zero_distance_push_amended ⟨0, 0, 0, 0, 0, 0⟩ 0 0 rfl rfl

/-! ## C6: update at a cursor-coincident point is well defined -/

/-- C6: for a point exactly at the cursor position the per-frame update is
total and produces the explicit finite state below; in this real-number
model no undefined value can reach the stored state, matching the
ECMAScript semantics where atan2(0,0) = 0 keeps every quantity finite. -/
theorem coincident_update_defined (p : Point) (t : ℝ) :
    Point.update p.x p.y t p =
      { originX := p.originX, originY := p.originY,
        x := p.x + (p.vx - force +
          ((p.originX + Real.sin (t + p.originY * 0.05) * 5) - p.x) * tension) * damping,
        y := p.y + (p.vy +
          ((p.originY + Real.cos (t + p.originX * 0.05) * 5) - p.y) * tension) * damping,
        vx := (p.vx - force +
          ((p.originX + Real.sin (t + p.originY * 0.05) * 5) - p.x) * tension) * damping,
        vy := (p.vy +
          ((p.originY + Real.cos (t + p.originX * 0.05) * 5) - p.y) * tension) * damping } := by
  simp only [Point.update, updateAmp, sub_self, repulsionDelta_zero]
  simp only [Point.mk.injEq]
  refine ⟨trivial, trivial, by ring, by ring, by ring, by ring⟩

/-! ## C8: the off-screen sentinel suppresses all repulsion -/

/-- Helper: the update with no repulsion contribution is the pure
drift-spring-damping step. -/
lemma updateAmp_no_repulsion (amp mx my t : ℝ) (p : Point)
    (h : repulsionDelta (mx - p.x) (my - p.y) = (0, 0)) :
    updateAmp amp mx my t p =
      { originX := p.originX, originY := p.originY,
        x := p.x + (p.vx +
          ((p.originX + Real.sin (t + p.originY * 0.05) * amp) - p.x) * tension) * damping,
        y := p.y + (p.vy +
          ((p.originY + Real.cos (t + p.originX * 0.05) * amp) - p.y) * tension) * damping,
        vx := (p.vx +
          ((p.originX + Real.sin (t + p.originY * 0.05) * amp) - p.x) * tension) * damping,
        vy := (p.vy +
          ((p.originY + Real.cos (t + p.originX * 0.05) * amp) - p.y) * tension) * damping } := by
  simp only [updateAmp, h]
  simp only [Point.mk.injEq]
  refine ⟨trivial, trivial, by ring, by ring, by ring, by ring⟩

/-- C8: with the cursor at the off-screen sentinel (-1000, -1000), every
point whose current position lies within the viewport extended by the
50 pixel margin is at distance at least the influence radius from the
cursor, the repulsion branch contributes nothing, and the update reduces
to the pure drift-spring-damping step. -/
theorem sentinel_no_influence_spec (w h : ℕ) (p : Point) (t : ℝ)
    (hx1 : -50 ≤ p.x) (_hx2 : p.x ≤ (w : ℝ) + 50)
    (hy1 : -50 ≤ p.y) (_hy2 : p.y ≤ (h : ℝ) + 50) :
    influence ≤ Real.sqrt ((mouseX0 - p.x) * (mouseX0 - p.x) +
      (mouseY0 - p.y) * (mouseY0 - p.y)) ∧
    repulsionDelta (mouseX0 - p.x) (mouseY0 - p.y) = (0, 0) ∧
    Point.update mouseX0 mouseY0 t p =
      { originX := p.originX, originY := p.originY,
        x := p.x + (p.vx +
          ((p.originX + Real.sin (t + p.originY * 0.05) * 5) - p.x) * tension) * damping,
        y := p.y + (p.vy +
          ((p.originY + Real.cos (t + p.originX * 0.05) * 5) - p.y) * tension) * damping,
        vx := (p.vx +
          ((p.originX + Real.sin (t + p.originY * 0.05) * 5) - p.x) * tension) * damping,
        vy := (p.vy +
          ((p.originY + Real.cos (t + p.originX * 0.05) * 5) - p.y) * tension) * damping } := by
  have hfar : influence ^ 2 ≤ (mouseX0 - p.x) * (mouseX0 - p.x) +
      (mouseY0 - p.y) * (mouseY0 - p.y) := by
    simp only [influence, mouseX0, mouseY0]
    nlinarith [sq_nonneg (-1000 - p.x + 950), sq_nonneg (-1000 - p.y + 950)]
  refine ⟨?_, repulsionDelta_far _ _ hfar, ?_⟩
  · calc influence = Real.sqrt (influence ^ 2) :=
          (Real.sqrt_sq (by norm_num [influence])).symm
      _ ≤ _ := Real.sqrt_le_sqrt hfar
  · exact updateAmp_no_repulsion 5 mouseX0 mouseY0 t p (repulsionDelta_far _ _ hfar)

/-- Witness for C8 on an 800 by 600 viewport with a point at the origin. -/
theorem sentinel_no_influence_spec_witness :
    influence ≤ Real.sqrt ((mouseX0 - 0) * (mouseX0 - 0) + (mouseY0 - 0) * (mouseY0 - 0)) :=
  (sentinel_no_influence_spec 800 600 ⟨0, 0, 0, 0, 0, 0⟩ 0
    (by norm_num : (-50 : ℝ) ≤ 0)
    (by norm_num : (0 : ℝ) ≤ ((800 : ℕ) : ℝ) + 50)
    (by norm_num : (-50 : ℝ) ≤ 0)
    (by norm_num : (0 : ℝ) ≤ ((600 : ℕ) : ℝ) + 50)).1

/-! ## Helper lemmas for the idle spring-damping dynamics -/

/-- Unfolding lemma: one more frame applies one more update. -/
lemma iterUpdate_succ (amp mx my t : ℝ) (p : Point) (n : ℕ) :
    iterUpdate amp mx my t p (n + 1) = updateAmp amp mx my t (iterUpdate amp mx my t p n) :=
  rfl

/-- Unfolding lemma: zero frames leave the point unchanged. -/
lemma iterUpdate_zero (amp mx my t : ℝ) (p : Point) :
    iterUpdate amp mx my t p 0 = p :=
  rfl

/-- With drift amplitude zero and no repulsion contribution, one frame is
the pure linear spring-damping step per axis. -/
lemma updateAmp_zero_no_repulsion (mx my t : ℝ) (p : Point)
    (h : repulsionDelta (mx - p.x) (my - p.y) = (0, 0)) :
    updateAmp 0 mx my t p =
      { originX := p.originX, originY := p.originY,
        x := p.x + (p.vx + (p.originX - p.x) * tension) * damping,
        y := p.y + (p.vy + (p.originY - p.y) * tension) * damping,
        vx := (p.vx + (p.originX - p.x) * tension) * damping,
        vy := (p.vy + (p.originY - p.y) * tension) * damping } := by
  rw [updateAmp_no_repulsion 0 mx my t p h]
  simp only [mul_zero, Point.mk.injEq]
  refine ⟨trivial, trivial, by ring, by ring, by ring, by ring⟩

/-- With drift amplitude zero and the cursor far away, one frame is the pure
linear spring-damping step per axis. -/
lemma updateAmp_zero_far (mx my t : ℝ) (p : Point)
    (h : influence ^ 2 ≤ (mx - p.x) * (mx - p.x) + (my - p.y) * (my - p.y)) :
    updateAmp 0 mx my t p =
      { originX := p.originX, originY := p.originY,
        x := p.x + (p.vx + (p.originX - p.x) * tension) * damping,
        y := p.y + (p.vy + (p.originY - p.y) * tension) * damping,
        vx := (p.vx + (p.originX - p.x) * tension) * damping,
        vy := (p.vy + (p.originY - p.y) * tension) * damping } :=
  updateAmp_zero_no_repulsion mx my t p (repulsionDelta_far _ _ h)

/-- Quadratic Lyapunov form for the per-axis error and velocity of the
spring-damping recurrence. -/
noncomputable def lyap (e v : ℝ) : ℝ := e ^ 2 + (11 / 9) * e * v + 20 * v ^ 2

/-- Total Lyapunov energy of a point over both axes. -/
noncomputable def energy (p : Point) : ℝ :=
  lyap (p.x - p.originX) p.vx + lyap (p.y - p.originY) p.vy

/-- The Lyapunov form is nonnegative. -/
lemma lyap_nonneg (e v : ℝ) : 0 ≤ lyap e v := by
  simp only [lyap]
  nlinarith [sq_nonneg (11 * e + 360 * v), sq_nonneg e]

/-- The squared error is controlled by the Lyapunov form. -/
lemma sq_le_lyap (e v : ℝ) : e ^ 2 ≤ 6480 / 6359 * lyap e v := by
  simp only [lyap]
  nlinarith [sq_nonneg (11 * e + 360 * v)]

/-- The spring-damping step contracts the Lyapunov form by exactly the
factor 9/10 (the damping constant). -/
lemma lyap_step (o x v : ℝ) :
    lyap (x + (v + (o - x) * tension) * damping - o) ((v + (o - x) * tension) * damping) =
      9 / 10 * lyap (x - o) v := by
  simp only [lyap, tension, damping]
  ring

/-- Invariant of the idle dynamics: with drift amplitude zero and the
repulsion branch never firing along the trajectory, the anchor is preserved
and the energy decays geometrically with ratio 9/10. -/
lemma idle_energy_invariant (p : Point) (t : ℝ)
    (hfar : ∀ n : ℕ, repulsionDelta (mouseX0 - (iterUpdate 0 mouseX0 mouseY0 t p n).x)
      (mouseY0 - (iterUpdate 0 mouseX0 mouseY0 t p n).y) = (0, 0)) :
    ∀ n : ℕ,
      (iterUpdate 0 mouseX0 mouseY0 t p n).originX = p.originX ∧
      (iterUpdate 0 mouseX0 mouseY0 t p n).originY = p.originY ∧
      energy (iterUpdate 0 mouseX0 mouseY0 t p n) = (9 / 10) ^ n * energy p := by
  intro n
  induction n with
  | zero => exact ⟨rfl, rfl, by rw [iterUpdate_zero, pow_zero, one_mul]⟩
  | succ n ih =>
    obtain ⟨hox, hoy2, hEn⟩ := ih
    set q := iterUpdate 0 mouseX0 mouseY0 t p n with hq
    have hstep : repulsionDelta (mouseX0 - q.x) (mouseY0 - q.y) = (0, 0) := hfar n
    rw [iterUpdate_succ, ← hq, updateAmp_zero_no_repulsion mouseX0 mouseY0 t q hstep]
    refine ⟨hox, hoy2, ?_⟩
    simp only [energy]
    rw [lyap_step, lyap_step]
    calc 9 / 10 * lyap (q.x - q.originX) q.vx + 9 / 10 * lyap (q.y - q.originY) q.vy
        = 9 / 10 * energy q := by
          simp only [energy]
          ring
      _ = 9 / 10 * ((9 / 10) ^ n * energy p) := by rw [hEn]
      _ = (9 / 10) ^ (n + 1) * energy p := by
          rw [pow_succ]
          ring

/-- On the x axis with anchor at the origin, a frame of the idle dynamics
(sentinel cursor, drift amplitude zero) is the scalar recurrence. -/
lemma axis_step (t x v : ℝ) :
    updateAmp 0 mouseX0 mouseY0 t ⟨0, 0, x, 0, v, 0⟩ =
      ⟨0, 0, x + (v + (0 - x) * tension) * damping, 0,
        (v + (0 - x) * tension) * damping, 0⟩ := by
  have hfar : influence ^ 2 ≤ (mouseX0 - x) * (mouseX0 - x) +
      (mouseY0 - (0 : ℝ)) * (mouseY0 - 0) := by
    simp only [influence, mouseX0, mouseY0]
    nlinarith [mul_self_nonneg (-1000 - x)]
  rw [updateAmp_zero_far mouseX0 mouseY0 t ⟨0, 0, x, 0, v, 0⟩ hfar]
  simp only [Point.mk.injEq]
  refine ⟨trivial, trivial, trivial, by ring, trivial, by ring⟩

/-- Points on the x axis with anchor at the origin keep that form under the
idle dynamics. -/
lemma axis_form_invariant (t x0 : ℝ) :
    ∀ n : ℕ, ∃ x v : ℝ,
      iterUpdate 0 mouseX0 mouseY0 t ⟨0, 0, x0, 0, 0, 0⟩ n = ⟨0, 0, x, 0, v, 0⟩ := by
  intro n
  induction n with
  | zero => exact ⟨x0, 0, rfl⟩
  | succ n ih =>
    obtain ⟨x, v, hx⟩ := ih
    exact ⟨x + (v + (0 - x) * tension) * damping, (v + (0 - x) * tension) * damping,
      by rw [iterUpdate_succ, hx, axis_step]⟩

/-! ## C3: idle distance to anchor does not strictly decrease every step -/

/-- Counterexample for C3: cursor at the sentinel, drift amplitude zero,
point starting at rest 1000 units from its anchor. After eight frames the
distance to anchor is about 9.35, still at least 1, yet the ninth frame
increases it to about 123.36: the spring overshoots through the anchor, so
the distance does not strictly decrease at every step while above a small
epsilon. -/
theorem idle_strict_decrease_counterexample :
    1 ≤ distToAnchor (iterUpdate 0 mouseX0 mouseY0 0 ⟨0, 0, 1000, 0, 0, 0⟩ 8) ∧
    distToAnchor (iterUpdate 0 mouseX0 mouseY0 0 ⟨0, 0, 1000, 0, 0, 0⟩ 8) <
      distToAnchor (iterUpdate 0 mouseX0 mouseY0 0 ⟨0, 0, 1000, 0, 0, 0⟩ 9) := by
  have h1 : iterUpdate 0 mouseX0 mouseY0 0 ⟨0, 0, 1000, 0, 0, 0⟩ 1 =
      ⟨0, 0, 955, 0, -45, 0⟩ := by
    rw [iterUpdate_succ, iterUpdate_zero, axis_step]
    simp only [Point.mk.injEq]
    norm_num [tension, damping]
  have h2 : iterUpdate 0 mouseX0 mouseY0 0 ⟨0, 0, 1000, 0, 0, 0⟩ 2 =
      ⟨0, 0, 871.525, 0, -83.475, 0⟩ := by
    rw [iterUpdate_succ, h1, axis_step]
    simp only [Point.mk.injEq]
    norm_num [tension, damping]
  have h3 : iterUpdate 0 mouseX0 mouseY0 0 ⟨0, 0, 1000, 0, 0, 0⟩ 3 =
      ⟨0, 0, 757.178875, 0, -114.346125, 0⟩ := by
    rw [iterUpdate_succ, h2, axis_step]
    simp only [Point.mk.injEq]
    norm_num [tension, damping]
  have h4 : iterUpdate 0 mouseX0 mouseY0 0 ⟨0, 0, 1000, 0, 0, 0⟩ 4 =
      ⟨0, 0, 620.194313125, 0, -136.984561875, 0⟩ := by
    rw [iterUpdate_succ, h3, axis_step]
    simp only [Point.mk.injEq]
    norm_num [tension, damping]
  have h5 : iterUpdate 0 mouseX0 mouseY0 0 ⟨0, 0, 1000, 0, 0, 0⟩ 5 =
      ⟨0, 0, 468.999463346875, 0, -151.194849778125, 0⟩ := by
    rw [iterUpdate_succ, h4, axis_step]
    simp only [Point.mk.injEq]
    norm_num [tension, damping]
  have h6 : iterUpdate 0 mouseX0 mouseY0 0 ⟨0, 0, 1000, 0, 0, 0⟩ 6 =
      ⟨0, 0, 311.819122695953125, 0, -157.180340650921875, 0⟩ := by
    rw [iterUpdate_succ, h5, axis_step]
    simp only [Point.mk.injEq]
    norm_num [tension, damping]
  have h7 : iterUpdate 0 mouseX0 mouseY0 0 ⟨0, 0, 1000, 0, 0, 0⟩ 7 =
      ⟨0, 0, 156.324955588805546875, 0, -155.494167107147578125, 0⟩ := by
    rw [iterUpdate_succ, h6, axis_step]
    simp only [Point.mk.injEq]
    norm_num [tension, damping]
  have h8 : iterUpdate 0 mouseX0 mouseY0 0 ⟨0, 0, 1000, 0, 0, 0⟩ 8 =
      ⟨0, 0, 9.345582190876476953125, 0, -146.979373397929069921875, 0⟩ := by
    rw [iterUpdate_succ, h7, axis_step]
    simp only [Point.mk.injEq]
    norm_num [tension, damping]
  have h9 : iterUpdate 0 mouseX0 mouseY0 0 ⟨0, 0, 1000, 0, 0, 0⟩ 9 =
      ⟨0, 0, -123.356405065849127439453125, 0, -132.701987256725604392578125, 0⟩ := by
    rw [iterUpdate_succ, h8, axis_step]
    simp only [Point.mk.injEq]
    norm_num [tension, damping]
  have hd8 : distToAnchor
      (⟨0, 0, 9.345582190876476953125, 0, -146.979373397929069921875, 0⟩ : Point) =
      9.345582190876476953125 := by
    simp only [distToAnchor]
    rw [show ((9.345582190876476953125 : ℝ) - 0) ^ 2 + ((0 : ℝ) - 0) ^ 2 =
      (9.345582190876476953125 : ℝ) ^ 2 by norm_num, Real.sqrt_sq (by norm_num)]
  have hd9 : distToAnchor
      (⟨0, 0, -123.356405065849127439453125, 0, -132.701987256725604392578125, 0⟩ : Point) =
      123.356405065849127439453125 := by
    simp only [distToAnchor]
    rw [show ((-123.356405065849127439453125 : ℝ) - 0) ^ 2 + ((0 : ℝ) - 0) ^ 2 =
      (123.356405065849127439453125 : ℝ) ^ 2 by norm_num, Real.sqrt_sq (by norm_num)]
  rw [h8, h9, hd8, hd9]
  norm_num

/-- C3 amended: with the cursor at the off-screen sentinel and drift
amplitude zero, and the repulsion branch never firing along the trajectory
(the assumption of the claim itself), a point starting at rest need not
approach its anchor monotonically, but its squared distance is bounded by
the geometrically decaying envelope (6480/6359) * (9/10)^n times the
initial squared distance, so the distance eventually falls below any
positive epsilon. -/
theorem idle_convergence_amended (p : Point) (t : ℝ)
    (hvx : p.vx = 0) (hvy : p.vy = 0)
    (hfar : ∀ n : ℕ, repulsionDelta (mouseX0 - (iterUpdate 0 mouseX0 mouseY0 t p n).x)
      (mouseY0 - (iterUpdate 0 mouseX0 mouseY0 t p n).y) = (0, 0)) :
    (∀ n : ℕ, distToAnchor (iterUpdate 0 mouseX0 mouseY0 t p n) ^ 2 ≤
      6480 / 6359 * (9 / 10) ^ n * ((p.x - p.originX) ^ 2 + (p.y - p.originY) ^ 2)) ∧
    (∀ ε : ℝ, 0 < ε → ∃ N : ℕ, ∀ n ≥ N,
      distToAnchor (iterUpdate 0 mouseX0 mouseY0 t p n) < ε) := by
  have hE0 : energy p = (p.x - p.originX) ^ 2 + (p.y - p.originY) ^ 2 := by
    simp only [energy, lyap, hvx, hvy]
    ring
  have hinv := idle_energy_invariant p t hfar
  have hbound : ∀ n : ℕ, distToAnchor (iterUpdate 0 mouseX0 mouseY0 t p n) ^ 2 ≤
      6480 / 6359 * (9 / 10) ^ n * ((p.x - p.originX) ^ 2 + (p.y - p.originY) ^ 2) := by
    intro n
    obtain ⟨hox, hoy2, hEn⟩ := hinv n
    set q := iterUpdate 0 mouseX0 mouseY0 t p n with hq
    have hdsq : distToAnchor q ^ 2 = (q.x - q.originX) ^ 2 + (q.y - q.originY) ^ 2 :=
      Real.sq_sqrt (by positivity)
    have h1 := sq_le_lyap (q.x - q.originX) q.vx
    have h2 := sq_le_lyap (q.y - q.originY) q.vy
    have hsum : distToAnchor q ^ 2 ≤ 6480 / 6359 * energy q := by
      rw [hdsq]
      simp only [energy]
      linarith
    calc distToAnchor q ^ 2 ≤ 6480 / 6359 * energy q := hsum
      _ = 6480 / 6359 * ((9 / 10) ^ n * energy p) := by rw [hEn]
      _ = 6480 / 6359 * (9 / 10) ^ n * energy p := by ring
      _ = 6480 / 6359 * (9 / 10) ^ n *
          ((p.x - p.originX) ^ 2 + (p.y - p.originY) ^ 2) := by rw [hE0]
  refine ⟨hbound, ?_⟩
  intro ε hε
  have hD : (0 : ℝ) ≤ (p.x - p.originX) ^ 2 + (p.y - p.originY) ^ 2 := by positivity
  have hKpos : (0 : ℝ) <
      6480 / 6359 * ((p.x - p.originX) ^ 2 + (p.y - p.originY) ^ 2) + 1 := by positivity
  obtain ⟨N, hN⟩ := exists_pow_lt_of_lt_one
    (show (0 : ℝ) < ε ^ 2 /
        (6480 / 6359 * ((p.x - p.originX) ^ 2 + (p.y - p.originY) ^ 2) + 1) by positivity)
    (by norm_num : (9 / 10 : ℝ) < 1)
  refine ⟨N, fun n hn => ?_⟩
  have hpmon : (9 / 10 : ℝ) ^ n ≤ (9 / 10 : ℝ) ^ N :=
    pow_le_pow_of_le_one (by norm_num) (by norm_num) hn
  have hpn : (0 : ℝ) ≤ (9 / 10 : ℝ) ^ n := by positivity
  have hpN : (0 : ℝ) ≤ (9 / 10 : ℝ) ^ N := by positivity
  have hNmul : (6480 / 6359 * ((p.x - p.originX) ^ 2 + (p.y - p.originY) ^ 2) + 1) *
      (9 / 10) ^ N < ε ^ 2 := by
    have h := (lt_div_iff₀ hKpos).mp hN
    linarith
  have hfin : distToAnchor (iterUpdate 0 mouseX0 mouseY0 t p n) ^ 2 < ε ^ 2 := by
    have h1 := hbound n
    nlinarith [hpmon, hpn, hpN, hD, hNmul]
  have hdn : 0 ≤ distToAnchor (iterUpdate 0 mouseX0 mouseY0 t p n) :=
    Real.sqrt_nonneg _
  nlinarith

/-- Witness for C3 amended: a point at rest 100 units right of its anchor;
its trajectory stays on the x axis, always at least 1000 units from the
sentinel, so the repulsion branch indeed never fires. -/
theorem idle_convergence_amended_witness :
    (∀ n : ℕ, distToAnchor (iterUpdate 0 mouseX0 mouseY0 0 ⟨0, 0, 100, 0, 0, 0⟩ n) ^ 2 ≤
      6480 / 6359 * (9 / 10) ^ n * (((100 : ℝ) - 0) ^ 2 + ((0 : ℝ) - 0) ^ 2)) ∧
    (∀ ε : ℝ, 0 < ε → ∃ N : ℕ, ∀ n ≥ N,
      distToAnchor (iterUpdate 0 mouseX0 mouseY0 0 ⟨0, 0, 100, 0, 0, 0⟩ n) < ε) :=
  idle_convergence_amended ⟨0, 0, 100, 0, 0, 0⟩ 0 rfl rfl (by
    intro n
    obtain ⟨x, v, hx⟩ := axis_form_invariant 0 100 n
    rw [hx]
    exact repulsionDelta_far _ _ (by
      simp only [influence, mouseX0, mouseY0]
      nlinarith [mul_self_nonneg (-1000 - x)]))

/-! ## C4: the margin guard only suppresses segment sources -/

/-- Concrete updated in-bounds point of the C4 frame: the origin lattice
point after one sentinel-cursor frame at time zero. -/
noncomputable def c4Inside : Point := ⟨0, 0, 0, 0.225, 0, 0.225⟩

/-- Concrete updated out-of-bounds point of the C4 frame: a point displaced
to x = 1200 after one sentinel-cursor frame at time zero. -/
noncomputable def c4Outside : Point :=
  ⟨40, 0, 1147.8, Real.cos 2 * (9 / 40), -52.2, Real.cos 2 * (9 / 40)⟩

/-- Evaluation of the frame update on the in-bounds point. -/
lemma c4_update_inside :
    Point.update mouseX0 mouseY0 0 ⟨0, 0, 0, 0, 0, 0⟩ = c4Inside := by
  rw [Point.update, updateAmp_no_repulsion 5 mouseX0 mouseY0 0 _
    (repulsionDelta_far _ _
      (show influence ^ 2 ≤ (mouseX0 - 0) * (mouseX0 - 0) + (mouseY0 - 0) * (mouseY0 - 0) by
        norm_num [influence, mouseX0, mouseY0]))]
  simp only [c4Inside, Point.mk.injEq]
  norm_num [tension, damping, Real.sin_zero, Real.cos_zero]

/-- Evaluation of the frame update on the displaced point: it lands at
x = 1147.8, far beyond the 50 pixel margin of a 200 pixel canvas. -/
lemma c4_update_outside :
    Point.update mouseX0 mouseY0 0 ⟨40, 0, 1200, 0, 0, 0⟩ = c4Outside := by
  rw [Point.update, updateAmp_no_repulsion 5 mouseX0 mouseY0 0 _
    (repulsionDelta_far _ _
      (show influence ^ 2 ≤
          (mouseX0 - 1200) * (mouseX0 - 1200) + (mouseY0 - 0) * (mouseY0 - 0) by
        norm_num [influence, mouseX0, mouseY0]))]
  simp only [c4Outside, Point.mk.injEq]
  norm_num [tension, damping, Real.sin_zero]
  all_goals ring

/-- The updated in-bounds point passes the margin guard. -/
lemma c4_inside_in_bounds : ¬ outOfBounds 200 200 c4Inside := by
  simp only [outOfBounds, c4Inside]
  push_neg
  refine ⟨by norm_num, by norm_num, by norm_num, by norm_num⟩

/-- The updated displaced point fails the margin guard. -/
lemma c4_outside_oob : outOfBounds 200 200 c4Outside := by
  simp only [outOfBounds, c4Outside]
  right
  left
  norm_num

/-- Segment evaluation of the two-point frame: the in-bounds point emits one
segment whose far endpoint is the out-of-bounds point. -/
lemma c4_segments :
    segmentsOf 200 200 [c4Inside, c4Outside] = [(c4Inside, c4Outside)] := by
  have hrn : rightNeighbor [c4Inside, c4Outside] c4Inside = some c4Outside := by
    rw [rightNeighbor, findPt, if_neg ?h1, findPt, if_pos ?h2]
    case h1 =>
      simp only [c4Inside, spacing]
      rintro ⟨ha, _⟩
      rw [abs_sub_lt_iff] at ha
      obtain ⟨_, hbad⟩ := ha
      norm_num at hbad
    case h2 =>
      simp only [c4Inside, c4Outside, spacing]
      constructor
      · rw [abs_sub_lt_iff]
        norm_num
      · rw [abs_sub_lt_iff]
        norm_num
  have hbn : bottomNeighbor [c4Inside, c4Outside] c4Inside = none := by
    rw [bottomNeighbor, findPt, if_neg ?b1, findPt, if_neg ?b2, findPt]
    case b1 =>
      simp only [c4Inside, spacing]
      rintro ⟨_, hb⟩
      rw [abs_sub_lt_iff] at hb
      obtain ⟨_, hbad⟩ := hb
      norm_num at hbad
    case b2 =>
      simp only [c4Inside, c4Outside, spacing]
      rintro ⟨hb, _⟩
      rw [abs_sub_lt_iff] at hb
      obtain ⟨hbad, _⟩ := hb
      norm_num at hbad
  simp only [segmentsOf, List.flatMap_cons, List.flatMap_nil, List.append_nil]
  rw [if_neg c4_inside_in_bounds, if_pos c4_outside_oob, hrn, hbn]
  simp

/-- Counterexample for C4: in the frame produced from this concrete
pre-state, the updated displaced point lies beyond the margin, yet the
emitted segment list contains a segment having it as an endpoint: the
guard of line 118 only stops it from being a segment source, and it is
still found as the right neighbour of an in-bounds point. -/
theorem boundary_skip_counterexample :
    outOfBounds 200 200 (Point.update mouseX0 mouseY0 0 ⟨40, 0, 1200, 0, 0, 0⟩) ∧
    (Point.update mouseX0 mouseY0 0 ⟨0, 0, 0, 0, 0, 0⟩,
      Point.update mouseX0 mouseY0 0 ⟨40, 0, 1200, 0, 0, 0⟩) ∈
      (animateFrame mouseX0 mouseY0 0 200 200
        [⟨0, 0, 0, 0, 0, 0⟩, ⟨40, 0, 1200, 0, 0, 0⟩]).2 := by
  constructor
  · rw [c4_update_outside]
    exact c4_outside_oob
  · have hsegs : (animateFrame mouseX0 mouseY0 0 200 200
        [⟨0, 0, 0, 0, 0, 0⟩, ⟨40, 0, 1200, 0, 0, 0⟩]).2 = [(c4Inside, c4Outside)] := by
      simp only [animateFrame, List.map_cons, List.map_nil]
      rw [c4_update_inside, c4_update_outside, c4_segments]
    rw [c4_update_inside, c4_update_outside, hsegs]
    simp

/-- C4 amended: a point beyond the margin is never the source endpoint of
an emitted connecting segment (though it can still appear as the target
endpoint found by the neighbour lookup). -/
theorem boundary_skip_source_amended (w h : ℕ) (pts : List Point) (p : Point)
    (hp : outOfBounds w h p) :
    ∀ s ∈ segmentsOf w h pts, s.1 ≠ p := by
  intro s hs
  simp only [segmentsOf, List.mem_flatMap] at hs
  obtain ⟨q, hq, hsq⟩ := hs
  by_cases hb : outOfBounds w h q
  · rw [if_pos hb] at hsq
    simp at hsq
  · rw [if_neg hb] at hsq
    rw [List.mem_append] at hsq
    have hfst : s.1 = q := by
      rcases hsq with h1 | h1
      · rcases hrn : rightNeighbor pts q with _ | n
        · rw [hrn] at h1
          simp at h1
        · rw [hrn] at h1
          simp only [List.mem_singleton] at h1
          rw [h1]
      · rcases hrn : bottomNeighbor pts q with _ | n
        · rw [hrn] at h1
          simp at h1
        · rw [hrn] at h1
          simp only [List.mem_singleton] at h1
          rw [h1]
    intro hcontra
    rw [hcontra] at hfst
    rw [← hfst] at hb
    exact hb hp

/-- Witness for C4 amended on the concrete frame: the emitted segment does
not have the out-of-bounds point as its source. -/
theorem boundary_skip_source_amended_witness :
    (c4Inside, c4Outside).1 ≠ c4Outside :=
  boundary_skip_source_amended 200 200 [c4Inside, c4Outside] c4Outside
    c4_outside_oob (c4Inside, c4Outside)
    (by rw [c4_segments]; simp)

end Portfolio
